import Mathlib

/-
Verification of the transaction lifecycle and isolation engine of
`packages/nextjs/src/utils/withSentry.ts`.

The embedding is a shallow one: each source function becomes a pure Lean
function threading explicit state (the outgoing response, the process-wide
transaction stash) and emitting a trace of observable events in program
order.  Asynchronous `await` sequencing within one request is represented
by the order of events in the trace; the `setImmediate` hop used to defer
`transaction.finish` is represented by an explicit `yieldTurnEv` event
preceding the finish event.
-/

/-- Environment flags that the source reads through external collaborators:
`hasTracingEnabled()` (from `@sentry/tracing`), `isBuild()` and the outcome
of the telemetry `flush` primitive. -/
structure Config where
  tracingEnabled : Bool
  buildMode : Bool
  flushSucceeds : Bool
deriving Repr, DecidableEq

/-- The fields of a Sentry transaction that the wrapper code observes or
mutates: identifier (`spanId`), mutable `name`, operation tag, start time,
optional finish time and the HTTP status recorded at finalization. -/
structure Transaction where
  spanId : String
  name : String
  op : String
  startTimestamp : Nat
  endTimestamp : Option Nat
  httpStatus : Option Nat
deriving Repr, DecidableEq

/-- Modelled from the spec: `Transaction.finish` (implemented in
`@sentry/tracing`, outside `src/`) marks the finish time; finishing is
idempotent — a second call on an already-finished transaction is a no-op
and never overwrites the recorded finish timestamp. -/
def Transaction.finish (t : Transaction) (now : Nat) : Transaction :=
  if t.endTimestamp.isSome then t else { t with endTimestamp := some now }

/-- Modelled from the spec: `Transaction.setHttpStatus` (outside `src/`)
records the response status code on the transaction. -/
def Transaction.setHttpStatus (t : Transaction) (code : Nat) : Transaction :=
  { t with httpStatus := some code }

/-- Modelled from the spec: `Transaction.setName` (outside `src/`) renames
the transaction; renaming always wins with the latest name. -/
def Transaction.setName (t : Transaction) (name : String) : Transaction :=
  { t with name := name }

/-- Observable events of one request's execution, listed in program order.
`yieldTurnEv` marks the `setImmediate` hop that defers the finish call by
one scheduling turn; `origEndEv` marks the invocation of the original
(unwrapped) `res.end`; `wrapEndEv` marks the monkeypatching of `res.end`. -/
inductive Event where
  | wrapEndEv
  | startTransactionEv (name : String)
  | setStatusEv (code : Nat)
  | captureEv
  | yieldTurnEv
  | finishEv (spanId : String)
  | flushEv (timeout : Nat) (ok : Bool)
  | rethrowEv
  | origEndEv
  | startChildEv (op : String)
  | finishSpanEv (op : String)
  | deleteEv (spanId : String)
deriving Repr, DecidableEq

def isFlushEv : Event → Bool
  | Event.flushEv _ _ => true
  | _ => false

/-- The outgoing response as the wrapper sees it (`AugmentedNextApiResponse`):
status fields plus the `__sentryTransaction` link stored on it. -/
structure Response where
  statusCode : Nat
  statusMessage : String
  sentryTransaction : Option Transaction
deriving Repr, DecidableEq

/-- JavaScript values as far as the wrapper inspects them: primitives,
plain objects (by identity), and primitive-wrapper objects produced by
`objectify`. -/
inductive JSValue where
  | strVal (s : String)
  | numVal (n : Int)
  | boolVal (b : Bool)
  | nullVal
  | objVal (id : Nat)
  | wrapped (p : JSValue)
deriving Repr, DecidableEq

/-- Modelled from the spec: `objectify` (from `@sentry/utils`, outside
`src/`) wraps a primitive in the equivalent wrapper class (string → String,
etc.) so that a seen flag can be stored on it; values that are already
objects pass through unchanged. -/
def objectify : JSValue → JSValue
  | JSValue.objVal i => JSValue.objVal i
  | JSValue.wrapped p => JSValue.wrapped p
  | v => JSValue.wrapped v

/-- Strips primitive-wrapper layers, exposing the underlying value: two
values have the same shape when they agree under this map. -/
def unwrapPrimitiveWrapper : JSValue → JSValue
  | JSValue.wrapped p => unwrapPrimitiveWrapper p
  | v => v

/- ----------------------------------------------------------------------
String utilities used by the transaction-name derivation.
---------------------------------------------------------------------- -/

/-- JavaScript `String.prototype.replace` with a literal string pattern:
replaces only the first occurrence; if the pattern does not occur, the
string is returned unchanged; an empty pattern matches at the start. -/
def replaceOnce (pat repl : List Char) : List Char → List Char
  | [] => if pat = [] then repl else []
  | c :: rest =>
      if pat = (c :: rest).take pat.length then repl ++ (c :: rest).drop pat.length
      else c :: replaceOnce pat repl rest

def jsStringReplace (s pat repl : String) : String :=
  ⟨replaceOnce pat.data repl.data s.data⟩

/-- Modelled from the spec: `stripUrlQueryAndFragment` (from
`@sentry/utils`, outside `src/`) removes the query string and fragment,
keeping the characters before the first `?` or `#`. -/
def stripUrlQueryAndFragment (url : String) : String :=
  ⟨url.data.takeWhile (fun c => !(c == '?' || c == '#'))⟩

/-- The request fields read by the handler wrapper: method, raw URL and the
query object (route parameters merged with query-string parameters, in
insertion order, as `Object.entries` iterates them). -/
structure Request where
  method : Option String
  url : String
  query : List (String × String)
deriving Repr, DecidableEq

/-- JavaScript `String.prototype.endsWith` with a literal suffix. -/
def jsEndsWith (s sfx : String) : Bool :=
  sfx.data == s.data.drop (s.data.length - sfx.data.length)

/-- JavaScript `String.prototype.toUpperCase` restricted to the ASCII
range, mapping each character to its upper-case form. -/
def jsToUpperCase (s : String) : String :=
  ⟨s.data.map Char.toUpper⟩

/-- Transaction-name derivation from `withSentry` (source lines 69-84):
strip the query string from the URL, replace the first occurrence of each
query value by its bracketed parameter name, and prepend the uppercased
method (defaulting to GET when the method is missing or empty, as the
falsy check of the source does). -/
def deriveTransactionName (req : Request) : String :=
  let reqPath := req.query.foldl
    (fun p kv => jsStringReplace p kv.2 ("[" ++ kv.1 ++ "]"))
    (stripUrlQueryAndFragment req.url)
  let rawMethod :=
    match req.method with
    | some s => if s = "" then "GET" else s
    | none => "GET"
  jsToUpperCase rawMethod ++ " " ++ reqPath

/- ----------------------------------------------------------------------
finishSentryProcessing / wrapEndMethod (source lines 177-216).
---------------------------------------------------------------------- -/

/-- `finishSentryProcessing` (source lines 190-216): if the response
carries a transaction, record the HTTP status on it, defer the finish by
one scheduling turn (`setImmediate`), await it, and then — with or without
a transaction — attempt `flush(2000)`, swallowing (only logging) any flush
failure.  The function therefore always returns normally; the flush
outcome is visible only in the trace. -/
def finishSentryProcessing (cfg : Config) (now : Nat) (res : Response) :
    Response × List Event :=
  match res.sentryTransaction with
  | some transaction =>
      let t2 := (transaction.setHttpStatus res.statusCode).finish now
      ({ res with sentryTransaction := some t2 },
       [Event.yieldTurnEv, Event.finishEv t2.spanId,
        Event.flushEv 2000 cfg.flushSucceeds])
  | none =>
      (res, [Event.flushEv 2000 cfg.flushSucceeds])

/-- The wrapped `res.end` produced by `wrapEndMethod` (source lines
177-183): await `finishSentryProcessing(this)`, then call the original
`end`. -/
def newEnd (cfg : Config) (now : Nat) (res : Response) :
    Response × List Event :=
  ((finishSentryProcessing cfg now res).1,
   (finishSentryProcessing cfg now res).2 ++ [Event.origEndEv])

/- ----------------------------------------------------------------------
withSentry (source lines 36-159).
---------------------------------------------------------------------- -/

/-- The tracing setup of the bound handler (source lines 55-98): when
tracing is enabled, derive the transaction name, start the transaction and
store the link to it on the response.  (The traceparent/baggage headers
only populate context fields of the transaction that no observed behavior
depends on; the current scope is the per-request domain scope.) -/
def tracingSetup (cfg : Config) (req : Request) (freshId : String)
    (now : Nat) (res : Response) : Response × List Event :=
  if cfg.tracingEnabled then
    let name := deriveTransactionName req
    let transaction : Transaction :=
      { spanId := freshId, name := name, op := "http.server",
        startTimestamp := now, endTimestamp := none, httpStatus := none }
    ({ res with sentryTransaction := some transaction },
     [Event.startTransactionEv name])
  else (res, [])

/-- The bound handler of `withSentry` (source lines 52-153): tracing setup,
then the wrapped business-logic handler; on a throw, objectify the error,
capture it, force the status to 500, await `finishSentryProcessing`, and
rethrow the objectified error. -/
def boundHandler (cfg : Config) (req : Request) (freshId : String) (now : Nat)
    (origHandler : Response → Response × Except JSValue Unit) (res : Response) :
    Response × List Event × Except JSValue Unit :=
  let setup := tracingSetup cfg req freshId now res
  match origHandler setup.1 with
  | (res2, Except.ok _) => (res2, setup.2, Except.ok ())
  | (res2, Except.error e) =>
      let res3 := { res2 with statusCode := 500,
                              statusMessage := "Internal Server Error" }
      ((finishSentryProcessing cfg now res3).1,
       setup.2 ++ [Event.captureEv, Event.setStatusEv 500]
         ++ (finishSentryProcessing cfg now res3).2 ++ [Event.rethrowEv],
       Except.error (objectify e))

/-- The wrapped handler returned by `withSentry` (source lines 38-158): its
first action replaces `res.end` with the wrapped version, then it runs the
domain-bound handler. -/
def withSentry (cfg : Config) (req : Request) (freshId : String) (now : Nat)
    (origHandler : Response → Response × Except JSValue Unit) (res : Response) :
    Response × List Event × Except JSValue Unit :=
  let r := boundHandler cfg req freshId now origHandler res
  (r.1, Event.wrapEndEv :: r.2.1, r.2.2)

/- ----------------------------------------------------------------------
The process-wide transaction stash (source lines 218-235).
---------------------------------------------------------------------- -/

/-- The global `__sentryTransactions__` record, as an association list;
insertion shadows earlier entries for the same key, so lookups see the
latest binding, matching assignment on a JavaScript object. -/
abbrev TransactionStash := List (String × Transaction)

def lookupStash : TransactionStash → String → Option Transaction
  | [], _ => none
  | (k, t) :: rest, i => if k = i then some t else lookupStash rest i

/-- `getTransactionById` (source lines 220-223): look up the stash by the
given identifier, defaulting a missing identifier to the empty string. -/
def getTransactionById (stash : TransactionStash)
    (transactionId : Option String) : Option Transaction :=
  lookupStash stash (transactionId.getD "")

/-- `deleteTransaction` (source lines 225-229): remove every binding of the
identifier (a JavaScript object holds at most one slot per key; shadowed
duplicates in the list model the history of one mutable slot). -/
def deleteTransaction (stash : TransactionStash) (transactionId : String) :
    TransactionStash :=
  match stash with
  | [] => []
  | (k, t) :: rest =>
      if k = transactionId then deleteTransaction rest transactionId
      else (k, t) :: deleteTransaction rest transactionId

/-- `stashTransaction` (source lines 231-235): store the transaction under
its own `spanId`. -/
def stashTransaction (stash : TransactionStash) (transaction : Transaction) :
    TransactionStash :=
  (transaction.spanId, transaction) :: stash

/- ----------------------------------------------------------------------
Data-loading phase wrappers and the _app wrapper (source lines 237-402).
---------------------------------------------------------------------- -/

/-- A `props` mapping; assignment shadows earlier bindings for the key. -/
def propLookup : List (String × JSValue) → String → Option JSValue
  | [], _ => none
  | (k, v) :: rest, i => if k = i then some v else propLookup rest i

def setProp (props : List (String × JSValue)) (key : String) (v : JSValue) :
    List (String × JSValue) :=
  (key, v) :: props

/-- The contents of the `_app` context data that the wrapper reads:
`pageProps` (possibly carrying the reserved transaction-identifier field)
and `router.route`. -/
structure AppContextData where
  pageProps : List (String × JSValue)
  route : String
deriving Repr, DecidableEq

/-- Reads `contextData.pageProps.__sentry_transaction_id__` (typed as an
optional string in the source). -/
def AppContextData.sentryTransactionId (c : AppContextData) : Option String :=
  match propLookup c.pageProps "__sentry_transaction_id__" with
  | some (JSValue.strVal s) => some s
  | _ => none

/-- The result of a run of `wrappedUnderscoreApp`: the updated stash, the
event trace, the transaction the run drove (a ghost observation of the
local `activeTransaction` variable; `none` on the pass-through path) and
the outcome (the rendered value, or the propagated thrown value). -/
structure AppRunResult where
  stash : TransactionStash
  events : List Event
  usedTransaction : Option Transaction
  outcome : Except JSValue JSValue

/-- `wrappedUnderscoreApp` from `withSentry_app` (source lines 252-290):
when tracing is enabled and not in build mode, resume the transaction
named by the reserved pageProps field, or start and stash a fresh one;
rename it to the current route, run the wrapped component inside an
`_app wrapper` child span, and on success finish the span, finish the
transaction and delete its registry entry.  A throw from the component
propagates, skipping the finish and delete steps.  `setName` mutates the
object shared with the stash, so the stash is re-written with the renamed
transaction. -/
def wrappedUnderscoreApp (cfg : Config) (freshId : String) (now : Nat)
    (origUnderscoreAppComponent : AppContextData → Except JSValue JSValue)
    (stash : TransactionStash) (contextData : AppContextData) : AppRunResult :=
  if cfg.tracingEnabled && !cfg.buildMode then
    let found := getTransactionById stash contextData.sentryTransactionId
    let started :=
      match found with
      | some t => (stash, t, ([] : List Event))
      | none =>
          let t : Transaction :=
            { spanId := freshId, name := contextData.route, op := "",
              startTimestamp := now, endTimestamp := none, httpStatus := none }
          (stashTransaction stash t, t, [Event.startTransactionEv contextData.route])
    let activeTransaction := started.2.1.setName contextData.route
    let stash2 := stashTransaction started.1 activeTransaction
    let evChild := started.2.2 ++ [Event.startChildEv "_app wrapper"]
    match origUnderscoreAppComponent contextData with
    | Except.ok jsx =>
        let finished := activeTransaction.finish now
        { stash := deleteTransaction stash2 activeTransaction.spanId,
          events := evChild ++ [Event.finishSpanEv "_app wrapper",
                                Event.finishEv activeTransaction.spanId,
                                Event.deleteEv activeTransaction.spanId],
          usedTransaction := some finished,
          outcome := Except.ok jsx }
    | Except.error e =>
        { stash := stash2, events := evChild,
          usedTransaction := some activeTransaction,
          outcome := Except.error e }
  else
    { stash := stash, events := [], usedTransaction := none,
      outcome := origUnderscoreAppComponent contextData }

/-- `startOrGetPageRouteTransaction` (source lines 314-326): look the
identifier up in the stash; if absent, start a fresh transaction with the
route as name; stash the result either way (superfluous when it was
already there, but harmless). -/
def startOrGetPageRouteTransaction (stash : TransactionStash) (route : String)
    (freshId : String) (now : Nat) (transactionId : Option String) :
    TransactionStash × Transaction × List Event :=
  match getTransactionById stash transactionId with
  | some t => (stashTransaction stash t, t, [])
  | none =>
      let t : Transaction :=
        { spanId := freshId, name := route, op := "http.server",
          startTimestamp := now, endTimestamp := none, httpStatus := none }
      (stashTransaction stash t, t, [Event.startTransactionEv route])

/-- The context fields of `getServerSideProps` read by the wrapper. -/
structure GsspContext where
  resolvedUrl : String
deriving Repr, DecidableEq

/-- The payload returned by a data-loading function. -/
structure PropsResult where
  props : List (String × JSValue)
deriving Repr, DecidableEq

/-- `wrappedGSSP` from `withSentryGSSP` (source lines 343-367): when
tracing is enabled, not in build mode and the resolved URL is not a `.map`
asset, start (never resume — no identifier is passed) a page-route
transaction, run the wrapped function inside a `getServerSideProps` child
span and inject the transaction identifier into the returned props under
the reserved key; otherwise call the wrapped function unmodified. -/
def wrappedGSSP (cfg : Config) (route : String) (freshId : String) (now : Nat)
    (gSSP : GsspContext → PropsResult) (stash : TransactionStash)
    (context : GsspContext) : TransactionStash × List Event × PropsResult :=
  if cfg.tracingEnabled && !cfg.buildMode
      && !(jsEndsWith context.resolvedUrl ".map") then
    let started := startOrGetPageRouteTransaction stash route freshId now none
    let finalProps := gSSP context
    (started.1,
     started.2.2 ++ [Event.startChildEv "getServerSideProps",
                     Event.finishSpanEv "getServerSideProps"],
     { props := setProp finalProps.props "__sentry_transaction_id__"
                  (JSValue.strVal started.2.1.spanId) })
  else
    (stash, [], gSSP context)

/-- The context of `getStaticProps`: an arbitrary record, which the
wrapper never inspects (in particular, it never checks a request path). -/
abbrev GspContext := List (String × JSValue)

/-- `wrappedGSP` from `withSentryGSP` (source lines 377-402): when tracing
is enabled and not in build mode, start and stash a transaction with the
placeholder name, run the wrapped function inside a `getStaticProps` child
span and inject the transaction identifier into the returned props;
otherwise call the wrapped function unmodified.  There is no request-path
exclusion check on this wrapper. -/
def wrappedGSP (cfg : Config) (freshId : String) (now : Nat)
    (gSP : GspContext → PropsResult) (stash : TransactionStash)
    (context : GspContext) : TransactionStash × List Event × PropsResult :=
  if cfg.tracingEnabled && !cfg.buildMode then
    let transaction : Transaction :=
      { spanId := freshId, name := "unknown transaction", op := "http.server",
        startTimestamp := now, endTimestamp := none, httpStatus := none }
    let finalProps := gSP context
    (stashTransaction stash transaction,
     [Event.startTransactionEv "unknown transaction",
      Event.startChildEv "getStaticProps", Event.finishSpanEv "getStaticProps"],
     { props := setProp finalProps.props "__sentry_transaction_id__"
                  (JSValue.strVal transaction.spanId) })
  else
    (stash, [], gSP context)

/- ----------------------------------------------------------------------
Helper lemmas and concrete sample inputs.
---------------------------------------------------------------------- -/

@[simp] theorem Transaction.finish_spanId (t : Transaction) (now : Nat) :
    (t.finish now).spanId = t.spanId := by
  unfold Transaction.finish; split <;> rfl

@[simp] theorem Transaction.finish_startTimestamp (t : Transaction) (now : Nat) :
    (t.finish now).startTimestamp = t.startTimestamp := by
  unfold Transaction.finish; split <;> rfl

@[simp] theorem Transaction.setName_spanId (t : Transaction) (n : String) :
    (t.setName n).spanId = t.spanId := rfl

@[simp] theorem Transaction.setName_startTimestamp (t : Transaction) (n : String) :
    (t.setName n).startTimestamp = t.startTimestamp := rfl

@[simp] theorem Transaction.setName_endTimestamp (t : Transaction) (n : String) :
    (t.setName n).endTimestamp = t.endTimestamp := rfl

@[simp] theorem Transaction.setHttpStatus_spanId (t : Transaction) (c : Nat) :
    (t.setHttpStatus c).spanId = t.spanId := rfl

theorem finishSentryProcessing_statusCode (cfg : Config) (now : Nat)
    (res : Response) :
    (finishSentryProcessing cfg now res).1.statusCode = res.statusCode := by
  cases h : res.sentryTransaction <;> simp [finishSentryProcessing, h]

theorem finishSentryProcessing_statusMessage (cfg : Config) (now : Nat)
    (res : Response) :
    (finishSentryProcessing cfg now res).1.statusMessage = res.statusMessage := by
  cases h : res.sentryTransaction <;> simp [finishSentryProcessing, h]

theorem lookupStash_deleteTransaction (s : TransactionStash) (i : String) :
    lookupStash (deleteTransaction s i) i = none := by
  induction s with
  | nil => rfl
  | cons kv rest ih =>
      obtain ⟨k, t⟩ := kv
      by_cases h : k = i
      · simp [deleteTransaction, h, ih]
      · simp [deleteTransaction, lookupStash, h, ih]

def sampleTransaction : Transaction :=
  { spanId := "T1", name := "GET /users/[id]", op := "http.server",
    startTimestamp := 0, endTimestamp := none, httpStatus := none }

def sampleRes : Response :=
  { statusCode := 200, statusMessage := "OK",
    sentryTransaction := some sampleTransaction }

def sampleResNoTx : Response :=
  { statusCode := 200, statusMessage := "OK", sentryTransaction := none }

def sampleCfg : Config :=
  { tracingEnabled := true, buildMode := false, flushSucceeds := true }

def sampleCfgOff : Config :=
  { tracingEnabled := false, buildMode := false, flushSucceeds := true }

def sampleReq : Request :=
  { method := some "GET", url := "/users/42?x=1", query := [("id", "42")] }

def sampleAppCtx : AppContextData := { pageProps := [], route := "/r" }

/-- Driving finalization twice for the same response, as happens when the
error path of `withSentry` runs `finishSentryProcessing` and the wrapped
`res.end` later runs it again (source comment, lines 142-145). -/
def finalizeTwice (cfg : Config) (t1 t2 : Nat) (res : Response) :
    Response × List Event :=
  ((finishSentryProcessing cfg t2 (finishSentryProcessing cfg t1 res).1).1,
   (finishSentryProcessing cfg t1 res).2
     ++ (finishSentryProcessing cfg t2 (finishSentryProcessing cfg t1 res).1).2)

/- ----------------------------------------------------------------------
Claim theorems.
---------------------------------------------------------------------- -/

/-- Claim C1: the wrapped handler replaces the response's close action
(`res.end`) with the wrapped version as its first action, and whenever the
wrapped close action is invoked, the whole finalization trace — including
the awaited flush — precedes the invocation of the underlying original
close call. -/
theorem withSentry_wrapped_end_flushes_before_close
    (cfg : Config) (req : Request) (freshId : String) (now : Nat)
    (origHandler : Response → Response × Except JSValue Unit)
    (res : Response) (now2 : Nat) (res2 : Response) :
    (∃ rest, (withSentry cfg req freshId now origHandler res).2.1
        = Event.wrapEndEv :: rest)
    ∧ (newEnd cfg now2 res2).2
        = (finishSentryProcessing cfg now2 res2).2 ++ [Event.origEndEv]
    ∧ Event.flushEv 2000 cfg.flushSucceeds
        ∈ (finishSentryProcessing cfg now2 res2).2
    ∧ Event.origEndEv ∉ (finishSentryProcessing cfg now2 res2).2 := by
  refine ⟨⟨(boundHandler cfg req freshId now origHandler res).2.1, rfl⟩,
    rfl, ?_, ?_⟩
  · cases h : res2.sentryTransaction <;> simp [finishSentryProcessing, h]
  · cases h : res2.sentryTransaction <;> simp [finishSentryProcessing, h]

/-- Claim C4 counterexample: finalizing a response that carries no
transaction still attempts the flush — the trace of
`finishSentryProcessing` contains a flush call, contradicting the claim
that the finish/flush step is skipped entirely. -/
theorem finishSentryProcessing_flushes_without_transaction :
    sampleResNoTx.sentryTransaction = none
    ∧ Event.flushEv 2000 true
        ∈ (finishSentryProcessing sampleCfg 0 sampleResNoTx).2 := by decide

/-- Claim C4 (amended): when the response carries no transaction, the
finish step alone is skipped — no finish event occurs, the response is
untouched and the call returns normally — but `flush(2000)` is still
attempted (with any failure swallowed). -/
theorem finishSentryProcessing_no_transaction_skips_finish_only
    (cfg : Config) (now : Nat) (res : Response)
    (h : res.sentryTransaction = none) :
    (finishSentryProcessing cfg now res).1 = res
    ∧ (finishSentryProcessing cfg now res).2
        = [Event.flushEv 2000 cfg.flushSucceeds]
    ∧ ∀ i, Event.finishEv i ∉ (finishSentryProcessing cfg now res).2 := by
  refine ⟨?_, ?_, ?_⟩ <;> simp [finishSentryProcessing, h]

theorem finishSentryProcessing_no_transaction_witness :
    sampleResNoTx.sentryTransaction = none
    ∧ ((finishSentryProcessing sampleCfg 0 sampleResNoTx).1 = sampleResNoTx
       ∧ (finishSentryProcessing sampleCfg 0 sampleResNoTx).2
           = [Event.flushEv 2000 sampleCfg.flushSucceeds]
       ∧ ∀ i, Event.finishEv i
           ∉ (finishSentryProcessing sampleCfg 0 sampleResNoTx).2) :=
  ⟨rfl, finishSentryProcessing_no_transaction_skips_finish_only
    sampleCfg 0 sampleResNoTx rfl⟩

/-- Claim C5: finalizing a response that carries a transaction defers the
finish by one scheduling turn (the yield event precedes the finish event),
records the finish before attempting the flush, uses the 2000ms flush
timeout, and swallows any flush failure: the returned response is
identical whether the flush succeeds or fails, and its HTTP fields are
unchanged. -/
theorem finishSentryProcessing_defers_finish_then_flushes
    (cfg : Config) (now : Nat) (res : Response) (t : Transaction)
    (htx : res.sentryTransaction = some t) :
    (finishSentryProcessing cfg now res).2
      = [Event.yieldTurnEv, Event.finishEv t.spanId,
         Event.flushEv 2000 cfg.flushSucceeds]
    ∧ (finishSentryProcessing cfg now res).1.sentryTransaction
      = some ((t.setHttpStatus res.statusCode).finish now)
    ∧ (finishSentryProcessing cfg now res).1.statusCode = res.statusCode
    ∧ (finishSentryProcessing cfg now res).1.statusMessage = res.statusMessage
    ∧ (finishSentryProcessing { cfg with flushSucceeds := false } now res).1
      = (finishSentryProcessing { cfg with flushSucceeds := true } now res).1 := by
  refine ⟨?_, ?_, ?_, ?_, ?_⟩ <;> simp [finishSentryProcessing, htx]

theorem finishSentryProcessing_defers_witness :
    sampleRes.sentryTransaction = some sampleTransaction
    ∧ ((finishSentryProcessing sampleCfg 7 sampleRes).2
        = [Event.yieldTurnEv, Event.finishEv sampleTransaction.spanId,
           Event.flushEv 2000 sampleCfg.flushSucceeds]
       ∧ (finishSentryProcessing sampleCfg 7 sampleRes).1.sentryTransaction
        = some ((sampleTransaction.setHttpStatus sampleRes.statusCode).finish 7)
       ∧ (finishSentryProcessing sampleCfg 7 sampleRes).1.statusCode
        = sampleRes.statusCode
       ∧ (finishSentryProcessing sampleCfg 7 sampleRes).1.statusMessage
        = sampleRes.statusMessage
       ∧ (finishSentryProcessing { sampleCfg with flushSucceeds := false } 7 sampleRes).1
        = (finishSentryProcessing { sampleCfg with flushSucceeds := true } 7 sampleRes).1) :=
  ⟨rfl, finishSentryProcessing_defers_finish_then_flushes
    sampleCfg 7 sampleRes sampleTransaction rfl⟩

/-- Claim C6 counterexample: driving finalization twice for the same
response yields two flush attempts, not exactly one as claimed (the
second pass does skip the finish, but flush is re-attempted). -/
theorem double_finalization_two_flush_attempts :
    List.countP isFlushEv (finalizeTwice sampleCfg 5 9 sampleRes).2 ≠ 1
    ∧ List.countP isFlushEv (finalizeTwice sampleCfg 5 9 sampleRes).2 = 2 := by
  decide

/-- Claim C6 (amended): driving finalization twice for the same
request/transaction yields exactly one finish timestamp — the second
finish call is an idempotent no-op, so the recorded finish time is that of
the first pass — but a flush is attempted on each of the two passes (the
second flush finds an already-drained queue). -/
theorem double_finalization_one_finish_timestamp
    (cfg : Config) (t1 t2 : Nat) (res : Response) (trans : Transaction)
    (htx : res.sentryTransaction = some trans)
    (hopen : trans.endTimestamp = none) :
    (∃ t, (finalizeTwice cfg t1 t2 res).1.sentryTransaction = some t
          ∧ t.endTimestamp = some t1)
    ∧ List.countP isFlushEv (finalizeTwice cfg t1 t2 res).2 = 2 := by
  constructor
  · refine ⟨((trans.setHttpStatus res.statusCode).finish t1).setHttpStatus
      res.statusCode, ?_, ?_⟩
    · simp [finalizeTwice, finishSentryProcessing, htx,
        Transaction.setHttpStatus, Transaction.finish, hopen]
    · simp [Transaction.setHttpStatus, Transaction.finish, hopen]
  · simp [finalizeTwice, finishSentryProcessing, htx, List.countP_cons,
      List.countP_nil, isFlushEv]

theorem double_finalization_witness :
    sampleRes.sentryTransaction = some sampleTransaction
    ∧ sampleTransaction.endTimestamp = none
    ∧ ((∃ t, (finalizeTwice sampleCfg 5 9 sampleRes).1.sentryTransaction = some t
             ∧ t.endTimestamp = some 5)
       ∧ List.countP isFlushEv (finalizeTwice sampleCfg 5 9 sampleRes).2 = 2) :=
  ⟨rfl, rfl, double_finalization_one_finish_timestamp
    sampleCfg 5 9 sampleRes sampleTransaction rfl rfl⟩

/-- Claim C2: when the wrapped business-logic handler throws, the response
status is forced to 500 before finalization runs (the status event
precedes the finalization trace and no flush occurs before it),
finalization — including the flush — is awaited before the rethrow event,
and the rethrown value is the objectified error, which has the same shape
as the original thrown value. -/
theorem withSentry_error_path_finalizes_before_rethrow
    (cfg : Config) (req : Request) (freshId : String) (now : Nat)
    (origHandler : Response → Response × Except JSValue Unit)
    (res res2 : Response) (e : JSValue)
    (hrun : origHandler (tracingSetup cfg req freshId now res).1
      = (res2, Except.error e)) :
    (boundHandler cfg req freshId now origHandler res).2.2
      = Except.error (objectify e)
    ∧ unwrapPrimitiveWrapper (objectify e) = unwrapPrimitiveWrapper e
    ∧ (boundHandler cfg req freshId now origHandler res).1.statusCode = 500
    ∧ (boundHandler cfg req freshId now origHandler res).1.statusMessage
      = "Internal Server Error"
    ∧ (boundHandler cfg req freshId now origHandler res).2.1
      = (tracingSetup cfg req freshId now res).2
        ++ [Event.captureEv, Event.setStatusEv 500]
        ++ (finishSentryProcessing cfg now
             { res2 with statusCode := 500,
                         statusMessage := "Internal Server Error" }).2
        ++ [Event.rethrowEv]
    ∧ Event.flushEv 2000 cfg.flushSucceeds
      ∈ (finishSentryProcessing cfg now
           { res2 with statusCode := 500,
                       statusMessage := "Internal Server Error" }).2
    ∧ (∀ tmo ok, Event.flushEv tmo ok ∉ (tracingSetup cfg req freshId now res).2) := by
  have hb : boundHandler cfg req freshId now origHandler res
      = ((finishSentryProcessing cfg now
            { res2 with statusCode := 500,
                        statusMessage := "Internal Server Error" }).1,
         (tracingSetup cfg req freshId now res).2
           ++ [Event.captureEv, Event.setStatusEv 500]
           ++ (finishSentryProcessing cfg now
                { res2 with statusCode := 500,
                            statusMessage := "Internal Server Error" }).2
           ++ [Event.rethrowEv],
         Except.error (objectify e)) := by
    simp only [boundHandler, hrun]
  refine ⟨by rw [hb], ?_, ?_, ?_, by rw [hb], ?_, ?_⟩
  · cases e <;> rfl
  · rw [hb]
    simp [finishSentryProcessing_statusCode]
  · rw [hb]
    simp [finishSentryProcessing_statusMessage]
  · cases h2 : res2.sentryTransaction <;> simp [finishSentryProcessing, h2]
  · intro tmo ok
    cases htr : cfg.tracingEnabled <;> simp [tracingSetup, htr]

theorem withSentry_error_path_witness :
    ((fun r => (r, (Except.error (JSValue.strVal "boom") : Except JSValue Unit)))
        (tracingSetup sampleCfg sampleReq "T1" 0 sampleResNoTx).1
      = ((tracingSetup sampleCfg sampleReq "T1" 0 sampleResNoTx).1,
         Except.error (JSValue.strVal "boom")))
    ∧ ((boundHandler sampleCfg sampleReq "T1" 0
          (fun r => (r, (Except.error (JSValue.strVal "boom") : Except JSValue Unit))) sampleResNoTx).2.2
        = Except.error (objectify (JSValue.strVal "boom"))
       ∧ unwrapPrimitiveWrapper (objectify (JSValue.strVal "boom"))
        = unwrapPrimitiveWrapper (JSValue.strVal "boom")
       ∧ (boundHandler sampleCfg sampleReq "T1" 0
            (fun r => (r, (Except.error (JSValue.strVal "boom") : Except JSValue Unit))) sampleResNoTx).1.statusCode
        = 500
       ∧ (boundHandler sampleCfg sampleReq "T1" 0
            (fun r => (r, (Except.error (JSValue.strVal "boom") : Except JSValue Unit))) sampleResNoTx).1.statusMessage
        = "Internal Server Error"
       ∧ (boundHandler sampleCfg sampleReq "T1" 0
            (fun r => (r, (Except.error (JSValue.strVal "boom") : Except JSValue Unit))) sampleResNoTx).2.1
        = (tracingSetup sampleCfg sampleReq "T1" 0 sampleResNoTx).2
          ++ [Event.captureEv, Event.setStatusEv 500]
          ++ (finishSentryProcessing sampleCfg 0
               { (tracingSetup sampleCfg sampleReq "T1" 0 sampleResNoTx).1 with
                   statusCode := 500,
                   statusMessage := "Internal Server Error" }).2
          ++ [Event.rethrowEv]
       ∧ Event.flushEv 2000 sampleCfg.flushSucceeds
        ∈ (finishSentryProcessing sampleCfg 0
             { (tracingSetup sampleCfg sampleReq "T1" 0 sampleResNoTx).1 with
                 statusCode := 500,
                 statusMessage := "Internal Server Error" }).2
       ∧ (∀ tmo ok, Event.flushEv tmo ok
            ∉ (tracingSetup sampleCfg sampleReq "T1" 0 sampleResNoTx).2)) :=
  ⟨rfl, withSentry_error_path_finalizes_before_rethrow sampleCfg sampleReq "T1" 0
    (fun r => (r, (Except.error (JSValue.strVal "boom") : Except JSValue Unit))) sampleResNoTx
    (tracingSetup sampleCfg sampleReq "T1" 0 sampleResNoTx).1
    (JSValue.strVal "boom") rfl⟩

/-- Claim C8: with tracing enabled, the request with URL `/users/42?x=1`
and route parameter `id=42` yields the transaction name `GET /users/[id]`
— query string stripped, the dynamic segment value replaced by its
bracketed parameter name, prefixed by the uppercased method — and the
bound handler's trace begins by starting a transaction with exactly that
name. -/
theorem api_route_transaction_naming
    (cfg : Config) (freshId : String) (now : Nat)
    (origHandler : Response → Response × Except JSValue Unit) (res : Response)
    (htr : cfg.tracingEnabled = true) :
    deriveTransactionName sampleReq = "GET /users/[id]"
    ∧ ∃ rest, (boundHandler cfg sampleReq freshId now origHandler res).2.1
        = Event.startTransactionEv "GET /users/[id]" :: rest := by
  have hn : deriveTransactionName sampleReq = "GET /users/[id]" := by decide
  refine ⟨hn, ?_⟩
  have hsetup : (tracingSetup cfg sampleReq freshId now res).2
      = [Event.startTransactionEv "GET /users/[id]"] := by
    simp [tracingSetup, htr, hn]
  rcases h : origHandler (tracingSetup cfg sampleReq freshId now res).1
    with ⟨res2, out⟩
  cases out with
  | ok u =>
      refine ⟨[], ?_⟩
      simp only [boundHandler, h]
      simp [hsetup]
  | error e =>
      refine ⟨[Event.captureEv, Event.setStatusEv 500]
        ++ (finishSentryProcessing cfg now
             { res2 with statusCode := 500,
                         statusMessage := "Internal Server Error" }).2
        ++ [Event.rethrowEv], ?_⟩
      simp only [boundHandler, h]
      simp [hsetup]

theorem api_route_transaction_naming_witness :
    sampleCfg.tracingEnabled = true
    ∧ (deriveTransactionName sampleReq = "GET /users/[id]"
       ∧ ∃ rest, (boundHandler sampleCfg sampleReq "T1" 0
            (fun r => (r, (Except.ok () : Except JSValue Unit))) sampleResNoTx).2.1
          = Event.startTransactionEv "GET /users/[id]" :: rest) :=
  ⟨rfl, api_route_transaction_naming sampleCfg "T1" 0
    (fun r => (r, (Except.ok () : Except JSValue Unit))) sampleResNoTx rfl⟩

/-- When the reserved identifier resolves in the stash, the _app wrapper
drives that very transaction (same identifier and start time) and never
starts a new one, on the success and on the error path alike. -/
theorem wrappedUnderscoreApp_found
    (cfg : Config) (freshId : String) (now : Nat)
    (comp : AppContextData → Except JSValue JSValue)
    (stash : TransactionStash) (ctx : AppContextData) (t0 : Transaction)
    (htr : cfg.tracingEnabled = true) (hb : cfg.buildMode = false)
    (hf : getTransactionById stash ctx.sentryTransactionId = some t0) :
    ((wrappedUnderscoreApp cfg freshId now comp stash ctx).usedTransaction.map
        Transaction.spanId = some t0.spanId)
    ∧ ((wrappedUnderscoreApp cfg freshId now comp stash ctx).usedTransaction.map
        Transaction.startTimestamp = some t0.startTimestamp)
    ∧ ∀ n, Event.startTransactionEv n
        ∉ (wrappedUnderscoreApp cfg freshId now comp stash ctx).events := by
  cases hcomp : comp ctx <;>
    simp [wrappedUnderscoreApp, htr, hb, hf, hcomp]

/-- The composition checked by the round-trip claim: run the wrapped
`getServerSideProps`, place its output payload into the `pageProps` of the
_app context, and run the wrapped _app component on the resulting stash. -/
def gsspThenApp (cfg : Config) (route freshId : String) (now : Nat)
    (gSSP : GsspContext → PropsResult) (stash : TransactionStash)
    (context : GsspContext) (approute freshId2 : String) (now2 : Nat)
    (comp : AppContextData → Except JSValue JSValue) : AppRunResult :=
  let r1 := wrappedGSSP cfg route freshId now gSSP stash context
  wrappedUnderscoreApp cfg freshId2 now2 comp r1.1
    { pageProps := r1.2.2.props, route := approute }

/-- Claim C3: when the transaction identifier written by the data-loading
wrapper under the reserved key rides along in the payload into the _app
wrapper's `pageProps`, the _app wrapper resumes the very transaction that
was stashed — same identifier (`freshId`) and same start time (`now`, the
start of the data-loading phase, not `now2`) — and starts no new
transaction. -/
theorem gssp_roundtrip_resumes_same_transaction
    (cfg : Config) (route freshId : String) (now : Nat)
    (gSSP : GsspContext → PropsResult) (stash : TransactionStash)
    (context : GsspContext) (approute freshId2 : String) (now2 : Nat)
    (comp : AppContextData → Except JSValue JSValue)
    (htr : cfg.tracingEnabled = true) (hb : cfg.buildMode = false)
    (hmap : jsEndsWith context.resolvedUrl ".map" = false)
    (hempty : lookupStash stash "" = none) :
    ((gsspThenApp cfg route freshId now gSSP stash context approute freshId2
        now2 comp).usedTransaction.map Transaction.spanId = some freshId)
    ∧ ((gsspThenApp cfg route freshId now gSSP stash context approute freshId2
        now2 comp).usedTransaction.map Transaction.startTimestamp = some now)
    ∧ ∀ n, Event.startTransactionEv n
        ∉ (gsspThenApp cfg route freshId now gSSP stash context approute
            freshId2 now2 comp).events := by
  have hr1 : wrappedGSSP cfg route freshId now gSSP stash context
      = ((freshId,
          { spanId := freshId, name := route, op := "http.server",
            startTimestamp := now, endTimestamp := none,
            httpStatus := none }) :: stash,
         [Event.startTransactionEv route,
          Event.startChildEv "getServerSideProps",
          Event.finishSpanEv "getServerSideProps"],
         { props := ("__sentry_transaction_id__", JSValue.strVal freshId)
             :: (gSSP context).props }) := by
    simp [wrappedGSSP, htr, hb, hmap, startOrGetPageRouteTransaction,
      getTransactionById, hempty, stashTransaction, setProp]
  have hfound : getTransactionById
      ((freshId,
        { spanId := freshId, name := route, op := "http.server",
          startTimestamp := now, endTimestamp := none,
          httpStatus := none }) :: stash)
      (AppContextData.sentryTransactionId
        { pageProps := ("__sentry_transaction_id__", JSValue.strVal freshId)
            :: (gSSP context).props, route := approute })
      = some { spanId := freshId, name := route, op := "http.server",
               startTimestamp := now, endTimestamp := none,
               httpStatus := none } := by
    simp [getTransactionById, AppContextData.sentryTransactionId, propLookup,
      lookupStash]
  have h := wrappedUnderscoreApp_found cfg freshId2 now2 comp
    ((freshId,
      { spanId := freshId, name := route, op := "http.server",
        startTimestamp := now, endTimestamp := none,
        httpStatus := none }) :: stash)
    { pageProps := ("__sentry_transaction_id__", JSValue.strVal freshId)
        :: (gSSP context).props, route := approute }
    { spanId := freshId, name := route, op := "http.server",
      startTimestamp := now, endTimestamp := none, httpStatus := none }
    htr hb hfound
  simpa [gsspThenApp, hr1] using h

theorem gssp_roundtrip_witness :
    sampleCfg.tracingEnabled = true
    ∧ sampleCfg.buildMode = false
    ∧ (jsEndsWith "/users/42" ".map" = false)
    ∧ lookupStash [] "" = none
    ∧ (((gsspThenApp sampleCfg "/users/[id]" "T1" 3
          (fun _ => { props := [("a", JSValue.numVal 1)] }) []
          { resolvedUrl := "/users/42" } "/r2" "T2" 9
          (fun _ => (Except.ok JSValue.nullVal : Except JSValue JSValue))).usedTransaction.map
            Transaction.spanId = some "T1")
       ∧ ((gsspThenApp sampleCfg "/users/[id]" "T1" 3
          (fun _ => { props := [("a", JSValue.numVal 1)] }) []
          { resolvedUrl := "/users/42" } "/r2" "T2" 9
          (fun _ => (Except.ok JSValue.nullVal : Except JSValue JSValue))).usedTransaction.map
            Transaction.startTimestamp = some 3)
       ∧ ∀ n, Event.startTransactionEv n
           ∉ (gsspThenApp sampleCfg "/users/[id]" "T1" 3
              (fun _ => { props := [("a", JSValue.numVal 1)] }) []
              { resolvedUrl := "/users/42" } "/r2" "T2" 9
              (fun _ => (Except.ok JSValue.nullVal : Except JSValue JSValue))).events) :=
  ⟨rfl, rfl, by decide, rfl,
   gssp_roundtrip_resumes_same_transaction sampleCfg "/users/[id]" "T1" 3
     (fun _ => { props := [("a", JSValue.numVal 1)] }) []
     { resolvedUrl := "/users/42" } "/r2" "T2" 9
     (fun _ => (Except.ok JSValue.nullVal : Except JSValue JSValue))
     rfl rfl (by decide) rfl⟩

/-- Claim C7 counterexample: `wrappedGSP` performs no request-path
exclusion check.  With tracing enabled and build mode off, a static-props
run whose context names a `.map` asset path still gets a transaction
started and the reserved field injected, so its result is not returned
as-is, contradicting the claim that the exclusion applies to both
wrappers. -/
theorem wrappedGSP_ignores_path_exclusion :
    jsEndsWith "/static/main.css.map" ".map" = true
    ∧ (wrappedGSP sampleCfg "T1" 0 (fun _ => { props := [("a", JSValue.numVal 1)] })
        [] [("resolvedUrl", JSValue.strVal "/static/main.css.map")]).2.2
      ≠ ({ props := [("a", JSValue.numVal 1)] } : PropsResult)
    ∧ propLookup (wrappedGSP sampleCfg "T1" 0
        (fun _ => { props := [("a", JSValue.numVal 1)] })
        [] [("resolvedUrl", JSValue.strVal "/static/main.css.map")]).2.2.props
        "__sentry_transaction_id__" = some (JSValue.strVal "T1")
    ∧ Event.startTransactionEv "unknown transaction"
      ∈ (wrappedGSP sampleCfg "T1" 0 (fun _ => { props := [("a", JSValue.numVal 1)] })
          [] [("resolvedUrl", JSValue.strVal "/static/main.css.map")]).2.1 := by
  refine ⟨by decide, by decide, by decide, by decide⟩

/-- Claim C7 (amended): `wrappedGSSP` calls the wrapped function unmodified
and returns its result as-is — no transaction created, no event emitted, no
reserved field injected — when tracing is disabled, the process is in build
mode, or the resolved URL ends in `.map`; `wrappedGSP` does the same when
tracing is disabled or the process is in build mode, but it has no
request-path exclusion of its own. -/
theorem data_loading_wrappers_pass_through
    (cfg : Config) (route freshId : String) (now : Nat)
    (gSSP : GsspContext → PropsResult) (stash : TransactionStash)
    (context : GsspContext) (freshId2 : String) (now2 : Nat)
    (gSP : GspContext → PropsResult) (stash2 : TransactionStash)
    (context2 : GspContext) :
    ((cfg.tracingEnabled && !cfg.buildMode
        && !(jsEndsWith context.resolvedUrl ".map")) = false
      → wrappedGSSP cfg route freshId now gSSP stash context
        = (stash, [], gSSP context))
    ∧ ((cfg.tracingEnabled && !cfg.buildMode) = false
      → wrappedGSP cfg freshId2 now2 gSP stash2 context2
        = (stash2, [], gSP context2)) := by
  constructor
  · intro h
    simp [wrappedGSSP, h]
  · intro h
    simp [wrappedGSP, h]

theorem data_loading_wrappers_pass_through_witness :
    ((sampleCfgOff.tracingEnabled && !sampleCfgOff.buildMode
        && !(jsEndsWith ("/u" : String) ".map")) = false)
    ∧ ((sampleCfgOff.tracingEnabled && !sampleCfgOff.buildMode) = false)
    ∧ wrappedGSSP sampleCfgOff "/r" "T1" 0
        (fun _ => { props := [("a", JSValue.numVal 1)] }) []
        { resolvedUrl := "/u" }
      = ([], [], (fun _ => ({ props := [("a", JSValue.numVal 1)] } : PropsResult))
          ({ resolvedUrl := "/u" } : GsspContext))
    ∧ wrappedGSP sampleCfgOff "T2" 0
        (fun _ => { props := [("b", JSValue.numVal 2)] }) [] []
      = ([], [], (fun _ => ({ props := [("b", JSValue.numVal 2)] } : PropsResult))
          ([] : GspContext)) :=
  ⟨by decide, by decide,
   (data_loading_wrappers_pass_through sampleCfgOff "/r" "T1" 0
      (fun _ => { props := [("a", JSValue.numVal 1)] }) []
      { resolvedUrl := "/u" } "T2" 0
      (fun _ => { props := [("b", JSValue.numVal 2)] }) [] []).1 (by decide),
   (data_loading_wrappers_pass_through sampleCfgOff "/r" "T1" 0
      (fun _ => { props := [("a", JSValue.numVal 1)] }) []
      { resolvedUrl := "/u" } "T2" 0
      (fun _ => { props := [("b", JSValue.numVal 2)] }) [] []).2 (by decide)⟩

/-- Claim C9: whenever a run of the _app wrapper finishes the transaction
it drove (the success path with tracing active — the only site in the
embedded code where a registry-stashed transaction is finished), the
registry entry is deleted in the same run, so a subsequent lookup by the
transaction's identifier returns absent. -/
theorem registry_lookup_absent_after_finish
    (cfg : Config) (freshId : String) (now : Nat)
    (comp : AppContextData → Except JSValue JSValue)
    (stash : TransactionStash) (ctx : AppContextData) (jsx : JSValue)
    (htr : cfg.tracingEnabled = true) (hb : cfg.buildMode = false)
    (hok : comp ctx = Except.ok jsx) :
    ∃ t, (wrappedUnderscoreApp cfg freshId now comp stash ctx).usedTransaction
        = some t
      ∧ Event.finishEv t.spanId
        ∈ (wrappedUnderscoreApp cfg freshId now comp stash ctx).events
      ∧ lookupStash
          (wrappedUnderscoreApp cfg freshId now comp stash ctx).stash t.spanId
        = none := by
  cases hf : getTransactionById stash ctx.sentryTransactionId with
  | some t0 =>
      refine ⟨(t0.setName ctx.route).finish now, ?_, ?_, ?_⟩ <;>
        simp [wrappedUnderscoreApp, htr, hb, hok, hf,
          lookupStash_deleteTransaction]
  | none =>
      refine ⟨(Transaction.setName
        { spanId := freshId, name := ctx.route, op := "",
          startTimestamp := now, endTimestamp := none, httpStatus := none }
        ctx.route).finish now, ?_, ?_, ?_⟩ <;>
        simp [wrappedUnderscoreApp, htr, hb, hok, hf,
          lookupStash_deleteTransaction]

theorem registry_lookup_absent_witness :
    sampleCfg.tracingEnabled = true
    ∧ sampleCfg.buildMode = false
    ∧ ((fun _ => (Except.ok (JSValue.numVal 1) : Except JSValue JSValue))
        sampleAppCtx = Except.ok (JSValue.numVal 1))
    ∧ ∃ t, (wrappedUnderscoreApp sampleCfg "T1" 0
          (fun _ => (Except.ok (JSValue.numVal 1) : Except JSValue JSValue))
          [] sampleAppCtx).usedTransaction = some t
        ∧ Event.finishEv t.spanId
          ∈ (wrappedUnderscoreApp sampleCfg "T1" 0
              (fun _ => (Except.ok (JSValue.numVal 1) : Except JSValue JSValue))
              [] sampleAppCtx).events
        ∧ lookupStash (wrappedUnderscoreApp sampleCfg "T1" 0
              (fun _ => (Except.ok (JSValue.numVal 1) : Except JSValue JSValue))
              [] sampleAppCtx).stash t.spanId = none :=
  ⟨rfl, rfl, rfl,
   registry_lookup_absent_after_finish sampleCfg "T1" 0
     (fun _ => (Except.ok (JSValue.numVal 1) : Except JSValue JSValue))
     [] sampleAppCtx (JSValue.numVal 1) rfl rfl rfl⟩

/-- Claim C10: when the component wrapped by the _app wrapper throws while
tracing is active (and the resumed transaction, if any, is still open),
neither the child span nor the transaction is finished, the registry entry
for the driven transaction is still present afterwards, no deletion
happens, and the thrown value propagates unchanged. -/
theorem wrappedUnderscoreApp_error_path_preserves_state
    (cfg : Config) (freshId : String) (now : Nat)
    (comp : AppContextData → Except JSValue JSValue)
    (stash : TransactionStash) (ctx : AppContextData) (e : JSValue)
    (htr : cfg.tracingEnabled = true) (hb : cfg.buildMode = false)
    (herr : comp ctx = Except.error e)
    (hopen : ∀ t, getTransactionById stash ctx.sentryTransactionId = some t
      → t.endTimestamp = none) :
    ∃ t, (wrappedUnderscoreApp cfg freshId now comp stash ctx).usedTransaction
        = some t
      ∧ t.endTimestamp = none
      ∧ lookupStash
          (wrappedUnderscoreApp cfg freshId now comp stash ctx).stash t.spanId
        = some t
      ∧ (∀ i, Event.finishEv i
          ∉ (wrappedUnderscoreApp cfg freshId now comp stash ctx).events)
      ∧ (∀ o, Event.finishSpanEv o
          ∉ (wrappedUnderscoreApp cfg freshId now comp stash ctx).events)
      ∧ (∀ i, Event.deleteEv i
          ∉ (wrappedUnderscoreApp cfg freshId now comp stash ctx).events)
      ∧ Event.startChildEv "_app wrapper"
        ∈ (wrappedUnderscoreApp cfg freshId now comp stash ctx).events
      ∧ (wrappedUnderscoreApp cfg freshId now comp stash ctx).outcome
        = Except.error e := by
  cases hf : getTransactionById stash ctx.sentryTransactionId with
  | some t0 =>
      refine ⟨t0.setName ctx.route, ?_, ?_, ?_, ?_, ?_, ?_, ?_, ?_⟩ <;>
        simp [wrappedUnderscoreApp, htr, hb, herr, hf, stashTransaction,
          lookupStash, hopen t0 hf]
  | none =>
      refine ⟨Transaction.setName
        { spanId := freshId, name := ctx.route, op := "",
          startTimestamp := now, endTimestamp := none, httpStatus := none }
        ctx.route, ?_, ?_, ?_, ?_, ?_, ?_, ?_, ?_⟩ <;>
        simp [wrappedUnderscoreApp, htr, hb, herr, hf, stashTransaction,
          lookupStash, Transaction.setName]

theorem wrappedUnderscoreApp_error_witness :
    sampleCfg.tracingEnabled = true
    ∧ sampleCfg.buildMode = false
    ∧ ((fun _ => (Except.error (JSValue.strVal "boom") : Except JSValue JSValue))
        sampleAppCtx = Except.error (JSValue.strVal "boom"))
    ∧ (∀ t, getTransactionById [] sampleAppCtx.sentryTransactionId = some t
        → t.endTimestamp = none)
    ∧ ∃ t, (wrappedUnderscoreApp sampleCfg "T1" 0
          (fun _ => (Except.error (JSValue.strVal "boom") : Except JSValue JSValue))
          [] sampleAppCtx).usedTransaction = some t
        ∧ t.endTimestamp = none
        ∧ lookupStash (wrappedUnderscoreApp sampleCfg "T1" 0
            (fun _ => (Except.error (JSValue.strVal "boom") : Except JSValue JSValue))
            [] sampleAppCtx).stash t.spanId = some t
        ∧ (∀ i, Event.finishEv i ∉ (wrappedUnderscoreApp sampleCfg "T1" 0
            (fun _ => (Except.error (JSValue.strVal "boom") : Except JSValue JSValue))
            [] sampleAppCtx).events)
        ∧ (∀ o, Event.finishSpanEv o ∉ (wrappedUnderscoreApp sampleCfg "T1" 0
            (fun _ => (Except.error (JSValue.strVal "boom") : Except JSValue JSValue))
            [] sampleAppCtx).events)
        ∧ (∀ i, Event.deleteEv i ∉ (wrappedUnderscoreApp sampleCfg "T1" 0
            (fun _ => (Except.error (JSValue.strVal "boom") : Except JSValue JSValue))
            [] sampleAppCtx).events)
        ∧ Event.startChildEv "_app wrapper" ∈ (wrappedUnderscoreApp sampleCfg "T1" 0
            (fun _ => (Except.error (JSValue.strVal "boom") : Except JSValue JSValue))
            [] sampleAppCtx).events
        ∧ (wrappedUnderscoreApp sampleCfg "T1" 0
            (fun _ => (Except.error (JSValue.strVal "boom") : Except JSValue JSValue))
            [] sampleAppCtx).outcome = Except.error (JSValue.strVal "boom") :=
  ⟨rfl, rfl, rfl, by intro t h; simp [getTransactionById, lookupStash] at h,
   wrappedUnderscoreApp_error_path_preserves_state sampleCfg "T1" 0
     (fun _ => (Except.error (JSValue.strVal "boom") : Except JSValue JSValue))
     [] sampleAppCtx (JSValue.strVal "boom") rfl rfl rfl
     (by intro t h; simp [getTransactionById, lookupStash] at h)⟩
